import Mathlib

/-!
Verification of the clip-service backend (src/backend/src/index.ts).

The program is a single Express endpoint POST /api/clip that orchestrates two
external processes: a yt-dlp download of a time-ranged segment to
`uploads/temp-muxed-<timestamp>.<ext>` and an ffmpeg stream-copy remux into
`uploads/clip-<timestamp>.mp4`, with a finally-block cleanup of intermediate
artifacts.

Shallow embedding choices:
* The filesystem is a finite map from full path strings to sizes, represented
  as `List (String × Nat)` (`existsSync` is membership, `statSync(..).size`
  is lookup).
* Each spawned process is modelled by a record of what the external world does
  on that run: an optional spawn error (the Node `error` event), the exit code
  delivered to the `close` event, the stdout chunks seen by the data handler,
  the accumulated stderr text, and the files the process wrote into the
  filesystem before `close` fired.
* The handler is a pure function from (timestamp, request, environment,
  initial filesystem) to (HTTP response, final filesystem, ordered event
  trace, cleanup log messages).  The trace records process spawns, the moment
  the response is sent (`res.json` / `res.status(..).json`), and the
  completion of the finally-block cleanup, in program order.
-/

namespace ClipService

/-- Filesystem model: a list of (full path, size) entries.  `index.ts` treats
the filesystem through `fs.existsSync`, `fs.statSync(..).size`,
`fs.readdirSync` and `fs.unlink`. -/
abbrev FS := List (String × Nat)

/-- Model of `fs.existsSync p`. -/
def existsFS (fs : FS) (p : String) : Bool :=
  fs.any (fun e => e.1 == p)

/-- Model of `fs.statSync(p).size` (0 when absent; in the code `statSync` is
only reached under an `existsSync` guard). -/
def sizeFS (fs : FS) (p : String) : Nat :=
  ((fs.find? (fun e => e.1 == p)).map (fun e => e.2)).getD 0

/-- Model of a successful `fs.unlink p`: the entry disappears. -/
def removeFS (fs : FS) (p : String) : FS :=
  fs.filter (fun e => e.1 != p)

/-- Writing one file: replaces any previous entry at that path. -/
def setFile (fs : FS) (e : String × Nat) : FS :=
  e :: removeFS fs e.1

/-- A process writing a batch of files into the filesystem. -/
def addFiles (fs : FS) (new : FS) : FS :=
  new.foldl setFile fs

/-- Model of `path.join dir name`. -/
def pathJoin (dir name : String) : String :=
  dir ++ "/" ++ name

/-- JS `String.prototype.startsWith`, implemented over the character lists so
that it computes by kernel reduction. -/
def strStartsWith (s p : String) : Bool :=
  List.isPrefixOf p.data s.data

/-- Model of `path.basename p`: the characters after the last '/'. -/
def pathBasename (p : String) : String :=
  ⟨p.data.foldl (fun acc c => if c == '/' then [] else acc ++ [c]) []⟩

/-- Model of `fs.readdirSync dir`: the names of the entries sitting directly
in `dir` (an entry is in `dir` exactly when rejoining `dir` with its basename
reproduces its full path). -/
def readdirFS (fs : FS) (dir : String) : List String :=
  fs.filterMap (fun e =>
    if pathJoin dir (pathBasename e.1) == e.1 then some (pathBasename e.1) else none)

/-- The uploads directory (`path.join(__dirname, '../uploads')` in the code;
its concrete text is irrelevant, we fix it to "uploads"). -/
def uploadsDir : String := "uploads"

/-- The request body `{url, startTime, endTime}`; `none` models an absent
field (JS `undefined`). -/
structure ClipRequest where
  url : Option String
  startTime : Option String
  endTime : Option String

/-- JS truthiness of an optional string field: absent and empty are falsy,
any non-empty string is truthy. -/
def truthy : Option String → Bool
  | none => false
  | some s => !(s == "")

/-- The validation guard `if (!url || !startTime || !endTime)` (negated). -/
def validates (req : ClipRequest) : Bool :=
  truthy req.url && truthy req.startTime && truthy req.endTime

/-- What the external world does on one yt-dlp run. -/
structure YtDlpRun where
  /-- `some m` models the `error` event firing with message `m` (spawn
  failure, e.g. binary not found); the files and close handling are then
  irrelevant, the promise already rejected. -/
  spawnErr : Option String
  /-- The exit code delivered to the `close` event. -/
  exitCode : Int
  /-- The successive stdout data chunks seen by the stdout handler. -/
  stdoutChunks : List String
  /-- The accumulated stderr text (`processStderr`). -/
  stderrText : String
  /-- The files the process wrote under the filesystem before `close`. -/
  filesWritten : FS

/-- What the external world does on one ffmpeg run. -/
structure FfmpegRun where
  /-- `some m` models the `error` event firing with message `m`. -/
  spawnErr : Option String
  /-- The exit code delivered to the `close` event. -/
  exitCode : Int
  /-- The accumulated stderr text (`ffmpegStderr`). -/
  stderrText : String
  /-- The files the process wrote before `close` (possibly the final output,
  possibly a stray `.part` fragment, possibly nothing). -/
  filesWritten : FS

/-- The external environment of one request. `unlinkFails p = true` models
`fs.unlink p` rejecting (the rejection is swallowed by `.catch` in the code,
leaving the file in place and logging a message). -/
structure Env where
  ytdlp : YtDlpRun
  ffmpeg : FfmpegRun
  unlinkFails : String → Bool

/-- Error message of the silent-failure rejection in `runYtDlpDownload`
(exit 0 but no discoverable output file). -/
def ytDlpSilentMsg (stderr : String) : String :=
  "yt-dlp (muxed) indicated success, but no output file was found. Stderr: " ++ stderr

/-- Error message of the nonzero-exit rejection in `runYtDlpDownload`. -/
def ytDlpCodeMsg (code : Int) (stderr : String) : String :=
  "yt-dlp download (muxed) failed with code " ++ toString code ++ ". Stderr: " ++ stderr

/-- Error message of the spawn-failure rejection in `runYtDlpDownload`. -/
def ytDlpSpawnMsg (m : String) : String :=
  "Failed to start yt-dlp (muxed): " ++ m

/-- Error message of the missing-or-empty-output rejection of the ffmpeg
stage (exit 0 but `finalOutputPath` absent or zero-sized). -/
def ffmpegMissingMsg (stderr : String) : String :=
  "FFmpeg remux failed: Output file missing or empty. Stderr: " ++ stderr

/-- Error message of the nonzero-exit rejection of the ffmpeg stage. -/
def ffmpegCodeMsg (code : Int) (stderr : String) : String :=
  "FFmpeg remux failed with code " ++ toString code ++ ". Stderr: " ++ stderr

/-- Error message of the spawn-failure rejection of the ffmpeg stage. -/
def ffmpegSpawnMsg (m : String) : String :=
  "Failed to start ffmpeg: " ++ m

/-- The literal announcement marker of the regex
`/\[downlaod\] Destination: (.+)/` (the "downlaod" misspelling is the
code's own). -/
def destinationMarker : String := "[downlaod] Destination: "

/-- The text after the first occurrence of `marker` in the character list, or
`none` when the marker does not occur. -/
def findAfterMarker (marker : List Char) : List Char → Option (List Char)
  | [] => none
  | c :: cs =>
    if List.isPrefixOf marker (c :: cs) then some ((c :: cs).drop marker.length)
    else findAfterMarker marker cs

/-- JS `String.prototype.trim` on the captured group, over character lists. -/
def trimChars (l : List Char) : List Char :=
  ((l.dropWhile Char.isWhitespace).reverse.dropWhile Char.isWhitespace).reverse

/-- One step of the stdout data handler: match the chunk against
`/\[downlaod\] Destination: (.+)/` (first marker occurrence, greedy capture
up to the end of the line), trim the capture, and accept it only when
non-empty (the `destinationMatch[1]` truthiness test) and starting with
`outputPathBase`.  Returns the path to store into `detectedPath`, or `none`
to leave `detectedPath` unchanged. -/
def detectFromChunk (outputPathBase chunk : String) : Option String :=
  match findAfterMarker destinationMarker.data chunk.data with
  | some rest =>
    let fp : String := ⟨trimChars (rest.takeWhile (fun c => !(c == '\n')))⟩
    if fp != "" && strStartsWith fp outputPathBase then some fp else none
  | none => none

/-- The value of `detectedPath` when `close` fires: the last accepted
announcement over the successive chunks (each chunk's handler overwrites the
previous detection when it accepts one). -/
def detectDestination (outputPathBase : String) (chunks : List String) : Option String :=
  chunks.foldl (fun acc c =>
    match detectFromChunk outputPathBase c with
    | some p => some p
    | none => acc) none

/-- The fallback directory search of the `close` handler: list the uploads
directory, take the first entry whose name starts with
`path.basename(outputPathBase)`; reject with the silent-failure error when
nothing suitable is found. -/
def ytDlpFindFallback (dir outputPathBase : String) (fs : FS) (stderr : String) :
    Except String String :=
  match (readdirFS fs dir).find? (fun f => strStartsWith f (pathBasename outputPathBase)) with
  | some f =>
    let fullPath := pathJoin dir f
    if existsFS fs fullPath then Except.ok fullPath
    else Except.error (ytDlpSilentMsg stderr)
  | none => Except.error (ytDlpSilentMsg stderr)

/-- The `close` handler of `runYtDlpDownload`: on exit code 0, use the
detected path when it exists on disk, otherwise fall back to the directory
search; on a nonzero exit code, reject with the code and stderr. -/
def ytDlpClose (dir outputPathBase : String) (detected : Option String) (fs : FS)
    (code : Int) (stderr : String) : Except String String :=
  if code = 0 then
    match detected with
    | some p =>
      if existsFS fs p then Except.ok p
      else ytDlpFindFallback dir outputPathBase fs stderr
    | none => ytDlpFindFallback dir outputPathBase fs stderr
  else Except.error (ytDlpCodeMsg code stderr)

/-- The whole `runYtDlpDownload` promise: spawn (which may fail with the
`error` event), let the process write its files, accumulate the detection
over stdout chunks, then run the `close` handler.  Returns the settled
promise value together with the filesystem as of settlement. -/
def runYtDlpDownload (run : YtDlpRun) (dir outputPathBase : String) (fs : FS) :
    Except String String × FS :=
  match run.spawnErr with
  | some m => (Except.error (ytDlpSpawnMsg m), fs)
  | none =>
    let fs1 := addFiles fs run.filesWritten
    (ytDlpClose dir outputPathBase (detectDestination outputPathBase run.stdoutChunks)
      fs1 run.exitCode run.stderrText, fs1)

/-- The `close` handler of the ffmpeg promise: success only when the exit
code is 0 AND `finalOutputPath` exists AND has size > 0; exit 0 with a
missing/empty file and a nonzero exit reject with distinct messages. -/
def ffmpegClose (finalPath : String) (fs : FS) (code : Int) (stderr : String) :
    Except String Unit :=
  if code = 0 then
    if existsFS fs finalPath && decide (0 < sizeFS fs finalPath) then Except.ok ()
    else Except.error (ffmpegMissingMsg stderr)
  else Except.error (ffmpegCodeMsg code stderr)

/-- The whole ffmpeg stage promise. -/
def runFfmpeg (run : FfmpegRun) (finalPath : String) (fs : FS) :
    Except String Unit × FS :=
  match run.spawnErr with
  | some m => (Except.error (ffmpegSpawnMsg m), fs)
  | none =>
    let fs1 := addFiles fs run.filesWritten
    (ffmpegClose finalPath fs1 run.exitCode run.stderrText, fs1)

/-- The log message of a failed temp-file unlink (the `.catch` handler). -/
def unlinkLogTemp : String := "Failed to delete temp muxed"

/-- The log message of a failed partial-file unlink (the `.catch` handler). -/
def unlinkLogPart : String := "Failed to delete partial file"

/-- One guarded deletion of the finally block: when `cond` (the `existsSync`
check taken on the pre-cleanup snapshot) holds, attempt the unlink; a failing
unlink is swallowed, leaving the file and logging `log`. -/
def tryUnlink (u : String → Bool) (log : String) (cond : Bool) (p : String) (fs : FS) :
    FS × List String :=
  if cond then
    if u p then (fs, [log]) else (removeFS fs p, [])
  else (fs, [])

/-- The first guarded deletion of the finally block:
`if (tempMuxedPath && fs.existsSync(tempMuxedPath)) { ... unlink ... }`. -/
def cleanupTempStep (u : String → Bool) (tempMuxedPath : Option String) (fs : FS) :
    FS × List String :=
  match tempMuxedPath with
  | some p => tryUnlink u unlinkLogTemp (existsFS fs p) p fs
  | none => (fs, [])

/-- The finally-block cleanup: both `existsSync` guards are evaluated on the
same snapshot (the code builds the promise array synchronously, then awaits
`Promise.all`); each deletion is independent and its failure is swallowed. -/
def cleanup (u : String → Bool) (tempMuxedPath : Option String) (finalPath : String)
    (fs : FS) : FS × List String :=
  let partPath := finalPath ++ ".part"
  let r1 := cleanupTempStep u tempMuxedPath fs
  let r2 := tryUnlink u unlinkLogPart (existsFS fs partPath) partPath r1.1
  (r2.1, r1.2 ++ r2.2)

/-- The three response shapes of the endpoint: `res.status(400).json({error})`,
`res.status(500).json({error, details})`, and
`res.json({success: true, filePath, message})`. -/
inductive HttpResponse where
  | badRequest (error : String)
  | serverError (error details : String)
  | okJson (filePath message : String)
  deriving DecidableEq, Repr

/-- The observable events of one request, in program order. -/
inductive Event where
  | spawnYtDlp
  | spawnFfmpeg
  | respond (r : HttpResponse)
  | cleanupDone
  deriving DecidableEq, Repr

/-- Whether an event is the sending of the HTTP response. -/
def Event.isRespond : Event → Bool
  | .respond _ => true
  | _ => false

/-- Whether an event is the completion of the finally-block cleanup. -/
def Event.isCleanupDone : Event → Bool
  | .cleanupDone => true
  | _ => false

/-- Index of the first event satisfying `p`. -/
def firstIdx (p : Event → Bool) : List Event → Option Nat
  | [] => none
  | e :: es => if p e then some 0 else (firstIdx p es).map (fun n => n + 1)

/-- Index of the response event in a trace. -/
def respondIdx (tr : List Event) : Option Nat := firstIdx Event.isRespond tr

/-- Index of the cleanup-completion event in a trace. -/
def cleanupIdx (tr : List Event) : Option Nat := firstIdx Event.isCleanupDone tr

/-- Everything observable about one handled request. -/
structure HandlerResult where
  response : HttpResponse
  fs : FS
  trace : List Event
  cleanupLogs : List String

/-- `tempMuxedPathBase` of the handler. -/
def tempMuxedBase (timestamp : Nat) : String :=
  pathJoin uploadsDir ("temp-muxed-" ++ toString timestamp)

/-- `finalOutputPath` of the handler. -/
def finalOutputPath (timestamp : Nat) : String :=
  pathJoin uploadsDir ("clip-" ++ toString timestamp ++ ".mp4")

/-- The fixed 500-response error string. -/
def processingErrorMsg : String := "Failed to process video section"

/-- The success message of the 200 response. -/
def successMsg : String := "Video section processed successfully"

/-- The fixed 400-response error string (the code says 'URL is required'
whichever field is missing). -/
def missingFieldMsg : String := "URL is required"

/-- Tail of every path through the handler: the response is sent inside the
try/catch, then the finally block runs the cleanup; the trace records them in
that order (`spawnEvents` is what was spawned before). -/
def respondAndCleanup (env : Env) (tempMuxedPath : Option String) (finalPath : String)
    (resp : HttpResponse) (spawnEvents : List Event) (fs : FS) : HandlerResult :=
  let c := cleanup env.unlinkFails tempMuxedPath finalPath fs
  ⟨resp, c.1, spawnEvents ++ [Event.respond resp, Event.cleanupDone], c.2⟩

/-- Continuation after the ffmpeg stage settles.  On rejection the catch
block sends the 500 response; on success `res.json` sends the 200 response;
either way `tempMuxedPath` has been resolved, so the finally block considers
it for deletion. -/
def afterRemux (env : Env) (tempPath finalPath : String)
    (r : Except String Unit × FS) : HandlerResult :=
  match r with
  | (Except.error e, fs2) =>
    respondAndCleanup env (some tempPath) finalPath
      (HttpResponse.serverError processingErrorMsg e)
      [Event.spawnYtDlp, Event.spawnFfmpeg] fs2
  | (Except.ok _, fs2) =>
    respondAndCleanup env (some tempPath) finalPath
      (HttpResponse.okJson finalPath successMsg)
      [Event.spawnYtDlp, Event.spawnFfmpeg] fs2

/-- Continuation after the download stage settles.  On rejection the error
propagates to the catch block (500 response) with `tempMuxedPath` still null,
and ffmpeg is never spawned; on success ffmpeg is spawned on the resolved
path.  (The `if (!tempMuxedPath) throw` guard of the code is unreachable:
the promise only ever resolves with a non-empty path.) -/
def afterFetch (env : Env) (finalPath : String)
    (r : Except String String × FS) : HandlerResult :=
  match r with
  | (Except.error e, fs1) =>
    respondAndCleanup env none finalPath
      (HttpResponse.serverError processingErrorMsg e)
      [Event.spawnYtDlp] fs1
  | (Except.ok tempPath, fs1) =>
    afterRemux env tempPath finalPath (runFfmpeg env.ffmpeg finalPath fs1)

/-- The whole `/api/clip` handler: derive the job paths from the timestamp,
validate field presence (on failure the 400 response is sent and the finally
block still runs), otherwise run the download then the remux, respond, and
clean up. -/
def clipHandler (timestamp : Nat) (req : ClipRequest) (env : Env) (fs0 : FS) :
    HandlerResult :=
  if validates req then
    afterFetch env (finalOutputPath timestamp)
      (runYtDlpDownload env.ytdlp uploadsDir (tempMuxedBase timestamp) fs0)
  else
    respondAndCleanup env none (finalOutputPath timestamp)
      (HttpResponse.badRequest missingFieldMsg) [] fs0

/-! Concrete fixtures used to exercise the model on explicit inputs. -/

/-- An unlink that always succeeds. -/
def unlinkOk : String → Bool := fun _ => false

/-- A well-formed request. -/
def reqOk : ClipRequest :=
  ⟨some "https://video.example/watch?id=42", some "00:00:10", some "00:00:20"⟩

/-- A request with `startTime` missing. -/
def reqNoStart : ClipRequest :=
  ⟨some "https://video.example/watch?id=42", none, some "00:00:20"⟩

/-- A yt-dlp run that announces its destination on stdout, writes that file,
and exits 0. -/
def ytOk : YtDlpRun :=
  { spawnErr := none, exitCode := 0,
    stdoutChunks := ["[downlaod] Destination: uploads/temp-muxed-5.mp4\n"],
    stderrText := "", filesWritten := [("uploads/temp-muxed-5.mp4", 100)] }

/-- A yt-dlp run that exits 1 after leaving a partial download behind. -/
def ytFail : YtDlpRun :=
  { spawnErr := none, exitCode := 1, stdoutChunks := [],
    stderrText := "ERROR", filesWritten := [("uploads/temp-muxed-5.mp4.part", 10)] }

/-- A yt-dlp run that exits 0 announcing nothing and writing nothing. -/
def ytSilent : YtDlpRun :=
  { spawnErr := none, exitCode := 0, stdoutChunks := [],
    stderrText := "boom", filesWritten := [] }

/-- A yt-dlp run that announces its destination on stdout and writes that
file, but then exits 1 (e.g. failing during the merge step). -/
def ytAnnounceFail : YtDlpRun :=
  { spawnErr := none, exitCode := 1,
    stdoutChunks := ["[downlaod] Destination: uploads/temp-muxed-5.mp4\n"],
    stderrText := "merge failed", filesWritten := [("uploads/temp-muxed-5.mp4", 100)] }

/-- A yt-dlp run that exits 0, announces nothing, but writes its output file
(found by the directory-search fallback). -/
def ytNoAnnounce : YtDlpRun :=
  { spawnErr := none, exitCode := 0, stdoutChunks := [],
    stderrText := "", filesWritten := [("uploads/temp-muxed-5.mp4", 100)] }

/-- An ffmpeg run that writes a non-empty final file and exits 0. -/
def ffOk : FfmpegRun :=
  { spawnErr := none, exitCode := 0, stderrText := "",
    filesWritten := [("uploads/clip-5.mp4", 50)] }

/-- An ffmpeg run that exits 0 without writing anything. -/
def ffEmpty : FfmpegRun :=
  { spawnErr := none, exitCode := 0, stderrText := "odd", filesWritten := [] }

/-- The fully successful environment. -/
def envOk : Env := ⟨ytOk, ffOk, unlinkOk⟩

/-- The environment whose download fails with exit code 1. -/
def envYtFail : Env := ⟨ytFail, ffOk, unlinkOk⟩

/-- The environment whose remux exits 0 without producing the final file. -/
def envFfEmpty : Env := ⟨ytOk, ffEmpty, unlinkOk⟩

/-! Helper lemmas about the filesystem model. -/

theorem existsFS_true_iff (fs : FS) (p : String) :
    existsFS fs p = true ↔ ∃ e ∈ fs, e.1 = p := by
  simp [existsFS, List.any_eq_true]

theorem existsFS_removeFS (fs : FS) (p q : String) :
    existsFS (removeFS fs q) p = (existsFS fs p && !(p == q)) := by
  rw [Bool.eq_iff_iff]
  simp only [existsFS_true_iff, removeFS, List.mem_filter, Bool.and_eq_true,
    Bool.not_eq_eq_eq_not, Bool.not_true, beq_eq_false_iff_ne, ne_eq, bne_iff_ne]
  constructor
  · rintro ⟨e, ⟨he, hq⟩, hp⟩
    exact ⟨⟨e, he, hp⟩, by simpa [hp] using hq⟩
  · rintro ⟨⟨e, he, hp⟩, hpq⟩
    exact ⟨e, ⟨he, by simpa [hp] using hpq⟩, hp⟩

theorem existsFS_removeFS_self (fs : FS) (p : String) :
    existsFS (removeFS fs p) p = false := by
  simp [existsFS_removeFS]

theorem existsFS_removeFS_ne (fs : FS) (p q : String) (h : p ≠ q) :
    existsFS (removeFS fs q) p = existsFS fs p := by
  simp [existsFS_removeFS, h]

theorem existsFS_setFile (fs : FS) (e : String × Nat) (p : String) :
    existsFS (setFile fs e) p = (e.1 == p || existsFS fs p) := by
  by_cases h : e.1 = p
  · simp [setFile, existsFS, h]
  · simp only [setFile, existsFS, List.any_cons]
    have : (e.1 == p) = false := by simpa using h
    rw [this]
    simp only [Bool.false_or]
    have hne : p ≠ e.1 := fun hh => h hh.symm
    simpa [existsFS] using existsFS_removeFS_ne fs p e.1 hne

theorem existsFS_addFiles (new fs : FS) (p : String) :
    existsFS (addFiles fs new) p = (existsFS new p || existsFS fs p) := by
  induction new generalizing fs with
  | nil => simp [addFiles, existsFS]
  | cons e rest ih =>
    show existsFS (addFiles (setFile fs e) rest) p = _
    rw [ih, existsFS_setFile]
    simp only [existsFS, List.any_cons]
    cases h1 : (e.1 == p) <;> cases h2 : rest.any (fun x => x.1 == p) <;> simp

/-! Helper lemmas about the guarded deletions of the cleanup step. -/

theorem tryUnlink_fst_true (u : String → Bool) (log : String) (c : Bool) (p q : String)
    (fs : FS) (h : existsFS (tryUnlink u log c p fs).1 q = true) :
    existsFS fs q = true := by
  rcases c with _ | _
  · simpa [tryUnlink] using h
  · rcases hu : u p with _ | _
    · simp only [tryUnlink, hu, if_true, Bool.false_eq_true, if_false,
        existsFS_removeFS, Bool.and_eq_true] at h
      exact h.1
    · simpa [tryUnlink, hu] using h

theorem tryUnlink_absent (u : String → Bool) (log : String) (c : Bool) (p q : String)
    (fs : FS) (h : existsFS fs q = false) :
    existsFS (tryUnlink u log c p fs).1 q = false := by
  cases h2 : existsFS (tryUnlink u log c p fs).1 q
  · rfl
  · rw [tryUnlink_fst_true u log c p q fs h2] at h
    exact h

theorem tryUnlink_removes (u : String → Bool) (log : String) (p : String) (fs : FS)
    (hu : u p = false) :
    existsFS (tryUnlink u log (existsFS fs p) p fs).1 p = false := by
  cases hc : existsFS fs p
  · simpa [tryUnlink] using hc
  · simp [tryUnlink, hu, existsFS_removeFS_self]

theorem tryUnlink_removes_cond (u : String → Bool) (log : String) (p : String) (fs : FS)
    (hu : u p = false) :
    existsFS (tryUnlink u log true p fs).1 p = false := by
  simp [tryUnlink, hu, existsFS_removeFS_self]

theorem tryUnlink_other (u : String → Bool) (log : String) (c : Bool) (p q : String)
    (fs : FS) (h : q ≠ p) :
    existsFS (tryUnlink u log c p fs).1 q = existsFS fs q := by
  unfold tryUnlink
  rcases c with _ | _
  · simp
  · rcases hu : u p with _ | _
    · simpa using existsFS_removeFS_ne fs q p h
    · simp

theorem tryUnlink_no_log (u : String → Bool) (log : String) (c : Bool) (p : String)
    (fs : FS) (hu : u p = false) :
    (tryUnlink u log c p fs).2 = [] := by
  rcases c with _ | _ <;> simp [tryUnlink, hu]

theorem tryUnlink_cond_false (u : String → Bool) (log : String) (p : String) (fs : FS) :
    tryUnlink u log false p fs = (fs, []) := rfl

/-! Helper lemmas about the cleanup step. -/

theorem cleanupTempStep_fst_true (u : String → Bool) (tp : Option String) (q : String)
    (fs : FS) (h : existsFS (cleanupTempStep u tp fs).1 q = true) :
    existsFS fs q = true := by
  rcases tp with _ | p
  · simpa [cleanupTempStep] using h
  · exact tryUnlink_fst_true u unlinkLogTemp (existsFS fs p) p q fs h

theorem cleanupTempStep_absent (u : String → Bool) (tp : Option String) (q : String)
    (fs : FS) (h : existsFS fs q = false) :
    existsFS (cleanupTempStep u tp fs).1 q = false := by
  cases h2 : existsFS (cleanupTempStep u tp fs).1 q
  · rfl
  · rw [cleanupTempStep_fst_true u tp q fs h2] at h
    exact h

theorem cleanupTempStep_removes (u : String → Bool) (p : String) (fs : FS)
    (hu : u p = false) :
    existsFS (cleanupTempStep u (some p) fs).1 p = false :=
  tryUnlink_removes u unlinkLogTemp p fs hu

theorem cleanup_fst_true (u : String → Bool) (tp : Option String) (f q : String)
    (fs : FS) (h : existsFS (cleanup u tp f fs).1 q = true) :
    existsFS fs q = true := by
  simp only [cleanup] at h
  exact cleanupTempStep_fst_true u tp q fs
    (tryUnlink_fst_true u unlinkLogPart (existsFS fs (f ++ ".part")) (f ++ ".part") q
      (cleanupTempStep u tp fs).1 h)

theorem cleanup_part_absent (u : String → Bool) (tp : Option String) (f : String)
    (fs : FS) (hu : u (f ++ ".part") = false) :
    existsFS (cleanup u tp f fs).1 (f ++ ".part") = false := by
  simp only [cleanup]
  cases hc : existsFS fs (f ++ ".part")
  · rw [tryUnlink_cond_false]
    exact cleanupTempStep_absent u tp (f ++ ".part") fs hc
  · exact tryUnlink_removes_cond u unlinkLogPart (f ++ ".part") (cleanupTempStep u tp fs).1 hu

theorem cleanup_temp_absent (u : String → Bool) (p f : String) (fs : FS)
    (hu : u p = false) :
    existsFS (cleanup u (some p) f fs).1 p = false := by
  simp only [cleanup]
  exact tryUnlink_absent u unlinkLogPart (existsFS fs (f ++ ".part")) (f ++ ".part") p
    (cleanupTempStep u (some p) fs).1 (cleanupTempStep_removes u p fs hu)

theorem cleanup_noop (u : String → Bool) (tp : Option String) (f : String) (fs : FS)
    (htp : ∀ p, tp = some p → existsFS fs p = false)
    (hpart : existsFS fs (f ++ ".part") = false) :
    cleanup u tp f fs = (fs, []) := by
  have h1 : cleanupTempStep u tp fs = (fs, []) := by
    rcases tp with _ | p
    · rfl
    · show tryUnlink u unlinkLogTemp (existsFS fs p) p fs = (fs, [])
      rw [htp p rfl]
      rfl
  simp only [cleanup]
  rw [h1, hpart, tryUnlink_cond_false]
  rfl

theorem cleanup_other (u : String → Bool) (tp : Option String) (f q : String) (fs : FS)
    (hq1 : q ≠ f ++ ".part") (hq2 : ∀ p, tp = some p → q ≠ p) :
    existsFS (cleanup u tp f fs).1 q = existsFS fs q := by
  simp only [cleanup]
  rw [tryUnlink_other u unlinkLogPart (existsFS fs (f ++ ".part")) (f ++ ".part") q
    (cleanupTempStep u tp fs).1 hq1]
  rcases tp with _ | p
  · rfl
  · exact tryUnlink_other u unlinkLogTemp (existsFS fs p) p q fs (hq2 p rfl)

theorem cleanup_no_logs (u : String → Bool) (tp : Option String) (f : String) (fs : FS)
    (hu : ∀ q, u q = false) : (cleanup u tp f fs).2 = [] := by
  have h1 : (cleanupTempStep u tp fs).2 = [] := by
    rcases tp with _ | p
    · rfl
    · exact tryUnlink_no_log u unlinkLogTemp (existsFS fs p) p fs (hu p)
  show (cleanupTempStep u tp fs).2 ++
    (tryUnlink u unlinkLogPart (existsFS fs (f ++ ".part")) (f ++ ".part")
      (cleanupTempStep u tp fs).1).2 = []
  rw [h1, tryUnlink_no_log u unlinkLogPart (existsFS fs (f ++ ".part")) (f ++ ".part")
    (cleanupTempStep u tp fs).1 (hu _)]
  rfl

/-! String helper lemmas (for message distinctness and path disjointness). -/

theorem strNe_of_data_getElem (a b : String) (n : Nat)
    (h : a.data[n]? ≠ b.data[n]?) : a ≠ b :=
  fun he => h (by rw [he])

theorem data_getElem_append (a b : String) (n : Nat) (h : n < a.data.length) :
    (a ++ b).data[n]? = a.data[n]? := by
  rw [String.data_append, List.getElem?_append, if_pos h]

theorem ne_append_part (f : String) : f ≠ f ++ ".part" := by
  intro h
  have hl := congrArg String.length h
  rw [String.length_append] at hl
  have h5 : (".part" : String).length = 5 := rfl
  rw [h5] at hl
  omega

theorem ytDlpSilentMsg_ne_codeMsg (c : Int) (s s2 : String) :
    ytDlpSilentMsg s ≠ ytDlpCodeMsg c s2 := by
  apply strNe_of_data_getElem _ _ 7
  rw [ytDlpSilentMsg, ytDlpCodeMsg, String.append_assoc, String.append_assoc,
    data_getElem_append _ _ 7 (by decide), data_getElem_append _ _ 7 (by decide)]
  decide

theorem ffmpegMissingMsg_ne_codeMsg (c : Int) (s s2 : String) :
    ffmpegMissingMsg s ≠ ffmpegCodeMsg c s2 := by
  apply strNe_of_data_getElem _ _ 19
  rw [ffmpegMissingMsg, ffmpegCodeMsg, String.append_assoc, String.append_assoc,
    data_getElem_append _ _ 19 (by decide), data_getElem_append _ _ 19 (by decide)]
  decide

/-! Branch equations of the handler, and the components of its common tail. -/

theorem respondAndCleanup_response (env : Env) (tp : Option String) (f : String)
    (r : HttpResponse) (evs : List Event) (fs : FS) :
    (respondAndCleanup env tp f r evs fs).response = r := rfl

theorem respondAndCleanup_fs (env : Env) (tp : Option String) (f : String)
    (r : HttpResponse) (evs : List Event) (fs : FS) :
    (respondAndCleanup env tp f r evs fs).fs = (cleanup env.unlinkFails tp f fs).1 := rfl

theorem respondAndCleanup_trace (env : Env) (tp : Option String) (f : String)
    (r : HttpResponse) (evs : List Event) (fs : FS) :
    (respondAndCleanup env tp f r evs fs).trace =
      evs ++ [Event.respond r, Event.cleanupDone] := rfl

theorem respondAndCleanup_logs (env : Env) (tp : Option String) (f : String)
    (r : HttpResponse) (evs : List Event) (fs : FS) :
    (respondAndCleanup env tp f r evs fs).cleanupLogs =
      (cleanup env.unlinkFails tp f fs).2 := rfl

theorem clipHandler_invalid (t : Nat) (req : ClipRequest) (env : Env) (fs0 : FS)
    (hv : validates req = false) :
    clipHandler t req env fs0 =
      respondAndCleanup env none (finalOutputPath t)
        (HttpResponse.badRequest missingFieldMsg) [] fs0 := by
  simp [clipHandler, hv]

theorem clipHandler_fetchFail (t : Nat) (req : ClipRequest) (env : Env) (fs0 : FS)
    (e : String) (fs1 : FS) (hv : validates req = true)
    (hF : runYtDlpDownload env.ytdlp uploadsDir (tempMuxedBase t) fs0 = (Except.error e, fs1)) :
    clipHandler t req env fs0 =
      respondAndCleanup env none (finalOutputPath t)
        (HttpResponse.serverError processingErrorMsg e) [Event.spawnYtDlp] fs1 := by
  simp [clipHandler, hv, hF, afterFetch]

theorem clipHandler_remuxFail (t : Nat) (req : ClipRequest) (env : Env) (fs0 : FS)
    (p : String) (fs1 : FS) (e : String) (fs2 : FS) (hv : validates req = true)
    (hF : runYtDlpDownload env.ytdlp uploadsDir (tempMuxedBase t) fs0 = (Except.ok p, fs1))
    (hR : runFfmpeg env.ffmpeg (finalOutputPath t) fs1 = (Except.error e, fs2)) :
    clipHandler t req env fs0 =
      respondAndCleanup env (some p) (finalOutputPath t)
        (HttpResponse.serverError processingErrorMsg e)
        [Event.spawnYtDlp, Event.spawnFfmpeg] fs2 := by
  simp [clipHandler, hv, hF, afterFetch, afterRemux, hR]

theorem clipHandler_success (t : Nat) (req : ClipRequest) (env : Env) (fs0 : FS)
    (p : String) (fs1 fs2 : FS) (hv : validates req = true)
    (hF : runYtDlpDownload env.ytdlp uploadsDir (tempMuxedBase t) fs0 = (Except.ok p, fs1))
    (hR : runFfmpeg env.ffmpeg (finalOutputPath t) fs1 = (Except.ok (), fs2)) :
    clipHandler t req env fs0 =
      respondAndCleanup env (some p) (finalOutputPath t)
        (HttpResponse.okJson (finalOutputPath t) successMsg)
        [Event.spawnYtDlp, Event.spawnFfmpeg] fs2 := by
  simp [clipHandler, hv, hF, afterFetch, afterRemux, hR]

/-! Auxiliary lemmas about the fetcher. -/

theorem readdir_exists (fs : FS) (dir f : String) (h : f ∈ readdirFS fs dir) :
    existsFS fs (pathJoin dir f) = true := by
  rw [readdirFS, List.mem_filterMap] at h
  obtain ⟨e, he, hf⟩ := h
  rcases hj : (pathJoin dir (pathBasename e.1) == e.1) with _ | _
  · rw [hj] at hf
    cases hf
  · rw [hj] at hf
    simp only [if_true] at hf
    obtain rfl : pathBasename e.1 = f := by
      cases hf
      rfl
    rw [existsFS_true_iff]
    exact ⟨e, he, (beq_iff_eq.mp hj).symm⟩

theorem fallback_ok_exists (dir base : String) (fs : FS) (st q : String)
    (h : ytDlpFindFallback dir base fs st = Except.ok q) : existsFS fs q = true := by
  rw [ytDlpFindFallback] at h
  rcases hf : (readdirFS fs dir).find? (fun f => strStartsWith f (pathBasename base))
      with _ | f
  · rw [hf] at h
    cases h
  · rw [hf] at h
    have h2 : (if existsFS fs (pathJoin dir f) = true then Except.ok (pathJoin dir f)
        else Except.error (ytDlpSilentMsg st)) = Except.ok q := h
    rcases he : existsFS fs (pathJoin dir f) with _ | _
    · rw [he] at h2
      simp at h2
    · rw [he] at h2
      simp only [if_true] at h2
      obtain rfl : pathJoin dir f = q := by
        cases h2
        rfl
      exact he

theorem runYtDlp_snd_exists (run : YtDlpRun) (dir base : String) (fs : FS) (q : String)
    (h : existsFS run.filesWritten q = false) :
    existsFS (runYtDlpDownload run dir base fs).2 q = existsFS fs q := by
  rcases hs : run.spawnErr with _ | m
  · simp [runYtDlpDownload, hs, existsFS_addFiles, h]
  · simp [runYtDlpDownload, hs]

/-! The claims. -/

/-- C3: if the download process exits 0 but no output file is discoverable
(no authoritative path detected from stdout, and the directory-search
fallback finds no file starting with the basename of the output base), the
fetcher rejects with an error that carries the captured stderr; a non-zero
exit code always rejects — whatever was announced on stdout or written to
disk — with an error carrying the exit code and the stderr; and the two
error messages are distinct. -/
theorem fetcher_silent_vs_nonzero_errors (run : YtDlpRun) (dir base : String) (fs : FS)
    (hspawn : run.spawnErr = none) :
    (run.exitCode = 0 →
      detectDestination base run.stdoutChunks = none →
      (readdirFS (addFiles fs run.filesWritten) dir).find?
        (fun f => strStartsWith f (pathBasename base)) = none →
      (runYtDlpDownload run dir base fs).1 = Except.error (ytDlpSilentMsg run.stderrText)) ∧
    (run.exitCode ≠ 0 →
      (runYtDlpDownload run dir base fs).1 =
        Except.error (ytDlpCodeMsg run.exitCode run.stderrText)) ∧
    (∃ a, ytDlpSilentMsg run.stderrText = a ++ run.stderrText) ∧
    (∃ a b, ytDlpCodeMsg run.exitCode run.stderrText =
      a ++ toString run.exitCode ++ (b ++ run.stderrText)) ∧
    (∀ c s s2, ytDlpSilentMsg s ≠ ytDlpCodeMsg c s2) := by
  refine ⟨?_, ?_, ⟨_, rfl⟩, ⟨"yt-dlp download (muxed) failed with code ", ". Stderr: ", ?_⟩,
    fun c s s2 => ytDlpSilentMsg_ne_codeMsg c s s2⟩
  · intro h0 hdet hfind
    simp [runYtDlpDownload, hspawn, hdet, ytDlpClose, h0, ytDlpFindFallback, hfind]
  · intro h1
    simp [runYtDlpDownload, hspawn, ytDlpClose, h1]
  · rw [ytDlpCodeMsg, String.append_assoc]

/-- C3 witness: a run with exit code 0, empty stdout and no file written
rejects with the silent-failure message; a run that announced its
destination and wrote the file but exited 1 rejects with the exit-code
message. -/
theorem fetcher_silent_vs_nonzero_errors_witness :
    (runYtDlpDownload ytSilent uploadsDir (tempMuxedBase 5) []).1 =
      Except.error (ytDlpSilentMsg "boom") ∧
    (runYtDlpDownload ytAnnounceFail uploadsDir (tempMuxedBase 5) []).1 =
      Except.error (ytDlpCodeMsg 1 "merge failed") :=
  ⟨(fetcher_silent_vs_nonzero_errors ytSilent uploadsDir (tempMuxedBase 5) [] rfl).1
      rfl rfl rfl,
    (fetcher_silent_vs_nonzero_errors ytAnnounceFail uploadsDir (tempMuxedBase 5) [] rfl).2.1
      (by decide)⟩

/-- C4: the remux stage succeeds exactly when the transcode process exits 0
AND the final file exists AND has size strictly greater than zero; exit 0
with a missing or empty file fails with the missing-or-empty message, a
non-zero exit fails with the exit-code message, and the two messages are
distinct. -/
theorem remux_postcondition (run : FfmpegRun) (fp : String) (fs : FS)
    (hspawn : run.spawnErr = none) :
    ((runFfmpeg run fp fs).1 = Except.ok () ↔
      run.exitCode = 0 ∧ existsFS (addFiles fs run.filesWritten) fp = true ∧
        0 < sizeFS (addFiles fs run.filesWritten) fp) ∧
    (run.exitCode = 0 →
      (existsFS (addFiles fs run.filesWritten) fp = false ∨
        sizeFS (addFiles fs run.filesWritten) fp = 0) →
      (runFfmpeg run fp fs).1 = Except.error (ffmpegMissingMsg run.stderrText)) ∧
    (run.exitCode ≠ 0 →
      (runFfmpeg run fp fs).1 = Except.error (ffmpegCodeMsg run.exitCode run.stderrText)) ∧
    (∀ c s s2, ffmpegMissingMsg s ≠ ffmpegCodeMsg c s2) := by
  have hr : (runFfmpeg run fp fs).1 =
      ffmpegClose fp (addFiles fs run.filesWritten) run.exitCode run.stderrText := by
    simp [runFfmpeg, hspawn]
  refine ⟨?_, ?_, ?_, fun c s s2 => ffmpegMissingMsg_ne_codeMsg c s s2⟩
  · rw [hr]
    by_cases h0 : run.exitCode = 0
    · cases he : existsFS (addFiles fs run.filesWritten) fp
      · simp [ffmpegClose, h0, he]
      · by_cases hs : 0 < sizeFS (addFiles fs run.filesWritten) fp
        · simp [ffmpegClose, h0, he, hs]
        · simp [ffmpegClose, h0, he, hs]
    · simp [ffmpegClose, h0]
  · intro h0 hbad
    rw [hr]
    rcases hbad with he | hsz
    · simp [ffmpegClose, h0, he]
    · simp [ffmpegClose, h0, hsz]
  · intro h1
    rw [hr]
    simp [ffmpegClose, h1]

/-- C4 witness: an ffmpeg run that exits 0 without writing the final file
rejects with the missing-or-empty message. -/
theorem remux_postcondition_witness :
    (runFfmpeg ffEmpty (finalOutputPath 5) []).1 =
      Except.error (ffmpegMissingMsg "odd") :=
  (remux_postcondition ffEmpty (finalOutputPath 5) [] rfl).2.1 rfl (Or.inl rfl)

/-- C6: when the download process exits 0 and no destination path was
detected from stdout, the fetcher lists the uploads directory and resolves
to the first entry whose name starts with the basename of the output base;
only when that search finds nothing does it fail. -/
theorem fetcher_fallback_search (run : YtDlpRun) (dir base : String) (fs : FS)
    (hspawn : run.spawnErr = none) (hcode : run.exitCode = 0)
    (hdet : detectDestination base run.stdoutChunks = none) :
    (∀ f, (readdirFS (addFiles fs run.filesWritten) dir).find?
        (fun g => strStartsWith g (pathBasename base)) = some f →
      (runYtDlpDownload run dir base fs).1 = Except.ok (pathJoin dir f)) ∧
    ((readdirFS (addFiles fs run.filesWritten) dir).find?
        (fun g => strStartsWith g (pathBasename base)) = none →
      (runYtDlpDownload run dir base fs).1 =
        Except.error (ytDlpSilentMsg run.stderrText)) := by
  constructor
  · intro f hf
    have hex := readdir_exists (addFiles fs run.filesWritten) dir f
      (List.mem_of_find?_eq_some hf)
    simp [runYtDlpDownload, hspawn, hdet, ytDlpClose, hcode, ytDlpFindFallback, hf, hex]
  · intro hfind
    simp [runYtDlpDownload, hspawn, hdet, ytDlpClose, hcode, ytDlpFindFallback, hfind]

/-- C6 witness: a run that announces nothing but writes
`uploads/temp-muxed-5.mp4` resolves to that file through the directory
search. -/
theorem fetcher_fallback_search_witness :
    (runYtDlpDownload ytNoAnnounce uploadsDir (tempMuxedBase 5) []).1 =
      Except.ok (pathJoin uploadsDir "temp-muxed-5.mp4") :=
  (fetcher_fallback_search ytNoAnnounce uploadsDir (tempMuxedBase 5) [] rfl rfl rfl).1
    "temp-muxed-5.mp4" rfl

/-- C9 (implicit): a destination path detected from stdout is used as the
result only when a file actually exists at that path when the process
closes; when the detected path does not exist, the directory-search fallback
runs instead, and the fetcher can never resolve to the nonexistent detected
path. -/
theorem fetcher_detected_requires_existence (run : YtDlpRun) (dir base p : String)
    (fs : FS) (hspawn : run.spawnErr = none) (hcode : run.exitCode = 0)
    (hdet : detectDestination base run.stdoutChunks = some p) :
    (existsFS (addFiles fs run.filesWritten) p = true →
      (runYtDlpDownload run dir base fs).1 = Except.ok p) ∧
    (existsFS (addFiles fs run.filesWritten) p = false →
      (runYtDlpDownload run dir base fs).1 =
        ytDlpFindFallback dir base (addFiles fs run.filesWritten) run.stderrText ∧
      (runYtDlpDownload run dir base fs).1 ≠ Except.ok p) := by
  constructor
  · intro he
    simp [runYtDlpDownload, hspawn, hdet, ytDlpClose, hcode, he]
  · intro he
    have hfb : (runYtDlpDownload run dir base fs).1 =
        ytDlpFindFallback dir base (addFiles fs run.filesWritten) run.stderrText := by
      simp [runYtDlpDownload, hspawn, hdet, ytDlpClose, hcode, he]
    refine ⟨hfb, ?_⟩
    intro hok
    rw [hfb] at hok
    rw [fallback_ok_exists dir base (addFiles fs run.filesWritten) run.stderrText p hok] at he
    cases he

/-- C9 witness: the successful run detects `uploads/temp-muxed-5.mp4`, which
exists when the process closes, and resolves to it. -/
theorem fetcher_detected_existence_witness :
    (runYtDlpDownload ytOk uploadsDir (tempMuxedBase 5) []).1 =
      Except.ok "uploads/temp-muxed-5.mp4" :=
  (fetcher_detected_requires_existence ytOk uploadsDir (tempMuxedBase 5)
    "uploads/temp-muxed-5.mp4" [] rfl rfl rfl).1 rfl

/-- C5: when the fetcher fails (non-zero exit, spawn error, or silent
failure), the error propagates: the response is the 500 shape carrying that
error, ffmpeg is never spawned, and the final file's existence is unchanged
(given that the downloader itself does not write a file at the final path,
which its `temp-muxed-` output template guarantees). -/
theorem fetch_failure_skips_remux (t : Nat) (req : ClipRequest) (env : Env) (fs0 : FS)
    (e : String) (hv : validates req = true)
    (hF : (runYtDlpDownload env.ytdlp uploadsDir (tempMuxedBase t) fs0).1 = Except.error e)
    (hnf : existsFS env.ytdlp.filesWritten (finalOutputPath t) = false) :
    (clipHandler t req env fs0).response =
      HttpResponse.serverError processingErrorMsg e ∧
    Event.spawnFfmpeg ∉ (clipHandler t req env fs0).trace ∧
    existsFS (clipHandler t req env fs0).fs (finalOutputPath t) =
      existsFS fs0 (finalOutputPath t) := by
  have hsnd := runYtDlp_snd_exists env.ytdlp uploadsDir (tempMuxedBase t) fs0
    (finalOutputPath t) hnf
  rcases hFull : runYtDlpDownload env.ytdlp uploadsDir (tempMuxedBase t) fs0 with ⟨r1, fs1⟩
  rw [hFull] at hF hsnd
  obtain rfl : r1 = Except.error e := hF
  rw [clipHandler_fetchFail t req env fs0 e fs1 hv hFull]
  refine ⟨rfl, ?_, ?_⟩
  · rw [respondAndCleanup_trace]
    simp
  · rw [respondAndCleanup_fs,
      cleanup_other env.unlinkFails none (finalOutputPath t) (finalOutputPath t) fs1
        (ne_append_part (finalOutputPath t)) (fun p hp => by cases hp)]
    exact hsnd

/-- C5 witness: the exit-code-1 run yields the 500 response with the
exit-code error, no ffmpeg spawn, and no final file. -/
theorem fetch_failure_skips_remux_witness :
    (clipHandler 5 reqOk envYtFail []).response =
      HttpResponse.serverError processingErrorMsg (ytDlpCodeMsg 1 "ERROR") ∧
    Event.spawnFfmpeg ∉ (clipHandler 5 reqOk envYtFail []).trace ∧
    existsFS (clipHandler 5 reqOk envYtFail []).fs (finalOutputPath 5) =
      existsFS ([] : FS) (finalOutputPath 5) :=
  fetch_failure_skips_remux 5 reqOk envYtFail [] (ytDlpCodeMsg 1 "ERROR") rfl rfl rfl

/-- C8: a request with any of the three fields missing or empty is rejected
with the 400 client-input response before any process is spawned and before
any file is created; when all three fields are present (whatever the time
strings contain), no further validation happens: the download process is
spawned as the very next step. -/
theorem validation_rejects_before_spawn (t : Nat) (req : ClipRequest) (env : Env)
    (fs0 : FS) :
    (validates req = false →
      (clipHandler t req env fs0).response = HttpResponse.badRequest missingFieldMsg ∧
      Event.spawnYtDlp ∉ (clipHandler t req env fs0).trace ∧
      Event.spawnFfmpeg ∉ (clipHandler t req env fs0).trace ∧
      ∀ p, existsFS (clipHandler t req env fs0).fs p = true → existsFS fs0 p = true) ∧
    (validates req = true →
      (clipHandler t req env fs0).trace.head? = some Event.spawnYtDlp) := by
  constructor
  · intro hv
    rw [clipHandler_invalid t req env fs0 hv]
    refine ⟨rfl, ?_, ?_, ?_⟩
    · rw [respondAndCleanup_trace]
      simp
    · rw [respondAndCleanup_trace]
      simp
    · intro p hp
      rw [respondAndCleanup_fs] at hp
      exact cleanup_fst_true env.unlinkFails none (finalOutputPath t) p fs0 hp
  · intro hv
    rcases hF : runYtDlpDownload env.ytdlp uploadsDir (tempMuxedBase t) fs0 with ⟨r1, fs1⟩
    cases r1 with
    | error e =>
      rw [clipHandler_fetchFail t req env fs0 e fs1 hv hF, respondAndCleanup_trace]
      rfl
    | ok p =>
      rcases hR : runFfmpeg env.ffmpeg (finalOutputPath t) fs1 with ⟨r2, fs2⟩
      cases r2 with
      | error e =>
        rw [clipHandler_remuxFail t req env fs0 p fs1 e fs2 hv hF hR,
          respondAndCleanup_trace]
        rfl
      | ok uu =>
        cases uu
        rw [clipHandler_success t req env fs0 p fs1 fs2 hv hF hR, respondAndCleanup_trace]
        rfl

/-- C8 witness: the request with `startTime` missing gets the 400 response,
and the well-formed request leads straight to the download spawn. -/
theorem validation_rejects_before_spawn_witness :
    (clipHandler 5 reqNoStart envOk []).response = HttpResponse.badRequest missingFieldMsg ∧
    (clipHandler 5 reqOk envOk []).trace.head? = some Event.spawnYtDlp :=
  ⟨((validation_rejects_before_spawn 5 reqNoStart envOk []).1 rfl).1,
    (validation_rejects_before_spawn 5 reqOk envOk []).2 rfl⟩

/-- C10 (implicit): the failure responses have exactly two shapes: a missing
field yields the 400 response with the fixed string 'URL is required'
(whichever field is missing), and every pipeline failure yields the 500
response with the fixed string 'Failed to process video section' and the
underlying error message as details; every response is one of the 400 shape,
the 500 shape, or the fixed success shape. -/
theorem response_shapes (t : Nat) (req : ClipRequest) (env : Env) (fs0 : FS) :
    (validates req = false →
      (clipHandler t req env fs0).response = HttpResponse.badRequest missingFieldMsg) ∧
    (∀ e, validates req = true →
      (runYtDlpDownload env.ytdlp uploadsDir (tempMuxedBase t) fs0).1 = Except.error e →
      (clipHandler t req env fs0).response =
        HttpResponse.serverError processingErrorMsg e) ∧
    (∀ p fs1 e fs2, validates req = true →
      runYtDlpDownload env.ytdlp uploadsDir (tempMuxedBase t) fs0 = (Except.ok p, fs1) →
      runFfmpeg env.ffmpeg (finalOutputPath t) fs1 = (Except.error e, fs2) →
      (clipHandler t req env fs0).response =
        HttpResponse.serverError processingErrorMsg e) ∧
    ((clipHandler t req env fs0).response = HttpResponse.badRequest missingFieldMsg ∨
      (∃ d, (clipHandler t req env fs0).response =
        HttpResponse.serverError processingErrorMsg d) ∨
      (clipHandler t req env fs0).response =
        HttpResponse.okJson (finalOutputPath t) successMsg) := by
  refine ⟨?_, ?_, ?_, ?_⟩
  · intro hv
    rw [clipHandler_invalid t req env fs0 hv]
    rfl
  · intro e hv hF
    rcases hFull : runYtDlpDownload env.ytdlp uploadsDir (tempMuxedBase t) fs0 with ⟨r1, fs1⟩
    rw [hFull] at hF
    obtain rfl : r1 = Except.error e := hF
    rw [clipHandler_fetchFail t req env fs0 e fs1 hv hFull]
    rfl
  · intro p fs1 e fs2 hv hF hR
    rw [clipHandler_remuxFail t req env fs0 p fs1 e fs2 hv hF hR]
    rfl
  · cases hv : validates req
    · rw [clipHandler_invalid t req env fs0 hv]
      exact Or.inl rfl
    · rcases hF : runYtDlpDownload env.ytdlp uploadsDir (tempMuxedBase t) fs0 with ⟨r1, fs1⟩
      cases r1 with
      | error e =>
        rw [clipHandler_fetchFail t req env fs0 e fs1 hv hF]
        exact Or.inr (Or.inl ⟨e, rfl⟩)
      | ok p =>
        rcases hR : runFfmpeg env.ffmpeg (finalOutputPath t) fs1 with ⟨r2, fs2⟩
        cases r2 with
        | error e =>
          rw [clipHandler_remuxFail t req env fs0 p fs1 e fs2 hv hF hR]
          exact Or.inr (Or.inl ⟨e, rfl⟩)
        | ok uu =>
          cases uu
          rw [clipHandler_success t req env fs0 p fs1 fs2 hv hF hR]
          exact Or.inr (Or.inr rfl)

/-- C10 witness: the remux failure (exit 0, nothing written) yields the 500
response whose details carry the underlying error message. -/
theorem response_shapes_witness :
    (clipHandler 5 reqOk envFfEmpty []).response =
      HttpResponse.serverError processingErrorMsg (ffmpegMissingMsg "odd") :=
  (response_shapes 5 reqOk envFfEmpty []).2.2.1 "uploads/temp-muxed-5.mp4"
    [("uploads/temp-muxed-5.mp4", 100)] (ffmpegMissingMsg "odd")
    [("uploads/temp-muxed-5.mp4", 100)] rfl rfl rfl

/-- C2 counterexample: on the fully successful request the response event
has index 2 in the trace and the cleanup completion has index 3, so cleanup
does NOT run and complete before the HTTP response is sent, refuting the
claim as stated. -/
theorem response_precedes_cleanup_counterexample :
    ¬ ∃ i j, cleanupIdx (clipHandler 5 reqOk envOk []).trace = some i ∧
      respondIdx (clipHandler 5 reqOk envOk []).trace = some j ∧ i < j := by
  rintro ⟨i, j, hi, hj, hij⟩
  have hc : cleanupIdx (clipHandler 5 reqOk envOk []).trace = some 3 := rfl
  have hr : respondIdx (clipHandler 5 reqOk envOk []).trace = some 2 := rfl
  rw [hc] at hi
  rw [hr] at hj
  injection hi with hi
  injection hj with hj
  omega

/-- C2 as amended: on every outcome path the Cleanup step runs and completes
as the final action of the request, strictly AFTER the HTTP response is sent
(the response is emitted inside the try/catch, the finally-block cleanup
afterwards). -/
theorem cleanup_runs_after_response (t : Nat) (req : ClipRequest) (env : Env) (fs0 : FS) :
    ∃ i j, respondIdx (clipHandler t req env fs0).trace = some i ∧
      cleanupIdx (clipHandler t req env fs0).trace = some j ∧ i < j ∧
      j + 1 = (clipHandler t req env fs0).trace.length := by
  cases hv : validates req
  · refine ⟨0, 1, ?_, ?_, by omega, ?_⟩ <;>
      simp [clipHandler_invalid t req env fs0 hv, respondAndCleanup_trace, respondIdx,
        cleanupIdx, firstIdx, Event.isRespond, Event.isCleanupDone]
  · rcases hF : runYtDlpDownload env.ytdlp uploadsDir (tempMuxedBase t) fs0 with ⟨r1, fs1⟩
    cases r1 with
    | error e =>
      refine ⟨1, 2, ?_, ?_, by omega, ?_⟩ <;>
        simp [clipHandler_fetchFail t req env fs0 e fs1 hv hF, respondAndCleanup_trace,
          respondIdx, cleanupIdx, firstIdx, Event.isRespond, Event.isCleanupDone]
    | ok p =>
      rcases hR : runFfmpeg env.ffmpeg (finalOutputPath t) fs1 with ⟨r2, fs2⟩
      cases r2 with
      | error e =>
        refine ⟨2, 3, ?_, ?_, by omega, ?_⟩ <;>
          simp [clipHandler_remuxFail t req env fs0 p fs1 e fs2 hv hF hR,
            respondAndCleanup_trace, respondIdx, cleanupIdx, firstIdx, Event.isRespond,
            Event.isCleanupDone]
      | ok uu =>
        cases uu
        refine ⟨2, 3, ?_, ?_, by omega, ?_⟩ <;>
          simp [clipHandler_success t req env fs0 p fs1 fs2 hv hF hR,
            respondAndCleanup_trace, respondIdx, cleanupIdx, firstIdx, Event.isRespond,
            Event.isCleanupDone]

/-- C1 counterexample: on the failed download that left
`uploads/temp-muxed-5.mp4.part` behind, the request completes (500 response)
but that file — created under uploads during the request, its name starting
with `temp-muxed-5`, distinct from the final clip — is still on disk
afterwards, refuting the claim that every such intermediate artifact is
removed. -/
theorem leftover_intermediate_counterexample :
    existsFS (clipHandler 5 reqOk envYtFail []).fs "uploads/temp-muxed-5.mp4.part" = true ∧
    strStartsWith (pathBasename "uploads/temp-muxed-5.mp4.part")
      (pathBasename (tempMuxedBase 5)) = true ∧
    "uploads/temp-muxed-5.mp4.part" ≠ finalOutputPath 5 := by
  refine ⟨rfl, rfl, by decide⟩

/-- C1 as amended: after every request (assuming deletions succeed), the
`finalPath + ".part"` fragment is absent and the intermediate file the
Fetcher resolved (when it resolved one) is absent; other files under uploads
whose names start with `temp-muxed-<timestamp>` — partial files left by a
failed download, or extra artifacts beyond the resolved one — may remain. -/
theorem intermediate_and_part_removed (t : Nat) (req : ClipRequest) (env : Env) (fs0 : FS)
    (hu : ∀ q, env.unlinkFails q = false) :
    existsFS (clipHandler t req env fs0).fs (finalOutputPath t ++ ".part") = false ∧
    (∀ p fs1, validates req = true →
      runYtDlpDownload env.ytdlp uploadsDir (tempMuxedBase t) fs0 = (Except.ok p, fs1) →
      existsFS (clipHandler t req env fs0).fs p = false) := by
  constructor
  · cases hv : validates req
    · rw [clipHandler_invalid t req env fs0 hv, respondAndCleanup_fs]
      exact cleanup_part_absent _ _ _ _ (hu _)
    · rcases hF : runYtDlpDownload env.ytdlp uploadsDir (tempMuxedBase t) fs0 with ⟨r1, fs1⟩
      cases r1 with
      | error e =>
        rw [clipHandler_fetchFail t req env fs0 e fs1 hv hF, respondAndCleanup_fs]
        exact cleanup_part_absent _ _ _ _ (hu _)
      | ok p =>
        rcases hR : runFfmpeg env.ffmpeg (finalOutputPath t) fs1 with ⟨r2, fs2⟩
        cases r2 with
        | error e =>
          rw [clipHandler_remuxFail t req env fs0 p fs1 e fs2 hv hF hR,
            respondAndCleanup_fs]
          exact cleanup_part_absent _ _ _ _ (hu _)
        | ok uu =>
          cases uu
          rw [clipHandler_success t req env fs0 p fs1 fs2 hv hF hR, respondAndCleanup_fs]
          exact cleanup_part_absent _ _ _ _ (hu _)
  · intro p fs1 hv hF
    rcases hR : runFfmpeg env.ffmpeg (finalOutputPath t) fs1 with ⟨r2, fs2⟩
    cases r2 with
    | error e =>
      rw [clipHandler_remuxFail t req env fs0 p fs1 e fs2 hv hF hR, respondAndCleanup_fs]
      exact cleanup_temp_absent env.unlinkFails p (finalOutputPath t) fs2 (hu p)
    | ok uu =>
      cases uu
      rw [clipHandler_success t req env fs0 p fs1 fs2 hv hF hR, respondAndCleanup_fs]
      exact cleanup_temp_absent env.unlinkFails p (finalOutputPath t) fs2 (hu p)

/-- C1 amended witness: on the fully successful request, neither the
`.part` fragment nor the resolved intermediate file survives. -/
theorem intermediate_and_part_removed_witness :
    existsFS (clipHandler 5 reqOk envOk []).fs (finalOutputPath 5 ++ ".part") = false ∧
    existsFS (clipHandler 5 reqOk envOk []).fs "uploads/temp-muxed-5.mp4" = false := by
  have h := intermediate_and_part_removed 5 reqOk envOk [] (fun q => rfl)
  exact ⟨h.1, h.2 "uploads/temp-muxed-5.mp4" [("uploads/temp-muxed-5.mp4", 100)] rfl rfl⟩

/-- The response does not depend on the unlink behaviour: cleanup failures
cannot change the primary result of the request. -/
theorem clipHandler_response_unlink (t : Nat) (req : ClipRequest) (env : Env)
    (u1 : String → Bool) (fs0 : FS) :
    (clipHandler t req ⟨env.ytdlp, env.ffmpeg, u1⟩ fs0).response =
      (clipHandler t req env fs0).response := by
  cases hv : validates req
  · rw [clipHandler_invalid t req env fs0 hv,
      clipHandler_invalid t req ⟨env.ytdlp, env.ffmpeg, u1⟩ fs0 hv]
    rfl
  · rcases hF : runYtDlpDownload env.ytdlp uploadsDir (tempMuxedBase t) fs0 with ⟨r1, fs1⟩
    cases r1 with
    | error e =>
      rw [clipHandler_fetchFail t req env fs0 e fs1 hv hF,
        clipHandler_fetchFail t req ⟨env.ytdlp, env.ffmpeg, u1⟩ fs0 e fs1 hv hF]
      rfl
    | ok p =>
      rcases hR : runFfmpeg env.ffmpeg (finalOutputPath t) fs1 with ⟨r2, fs2⟩
      cases r2 with
      | error e =>
        rw [clipHandler_remuxFail t req env fs0 p fs1 e fs2 hv hF hR,
          clipHandler_remuxFail t req ⟨env.ytdlp, env.ffmpeg, u1⟩ fs0 p fs1 e fs2 hv hF hR]
        rfl
      | ok uu =>
        cases uu
        rw [clipHandler_success t req env fs0 p fs1 fs2 hv hF hR,
          clipHandler_success t req ⟨env.ytdlp, env.ffmpeg, u1⟩ fs0 p fs1 fs2 hv hF hR]
        rfl

/-- C7: Cleanup is idempotent and failure-tolerant: running it when the
artifacts are already absent is a no-op producing no error; running it twice
in a row on the same paths produces no error (and no change) the second
time; a failing deletion of one artifact does not prevent the other
artifact's removal; and unlink behaviour cannot change the request's primary
response. -/
theorem cleanup_idempotent_failure_tolerant (u u1 : String → Bool) (tp : Option String)
    (f : String) (fs : FS) (t : Nat) (req : ClipRequest) (env : Env) (fs0 : FS) :
    ((∀ p, tp = some p → existsFS fs p = false) →
      existsFS fs (f ++ ".part") = false →
      cleanup u tp f fs = (fs, [])) ∧
    ((∀ q, u q = false) →
      cleanup u tp f (cleanup u tp f fs).1 = ((cleanup u tp f fs).1, [])) ∧
    (existsFS fs (f ++ ".part") = true → u (f ++ ".part") = false →
      existsFS (cleanup u tp f fs).1 (f ++ ".part") = false) ∧
    (∀ p, tp = some p → u p = false →
      existsFS (cleanup u tp f fs).1 p = false) ∧
    (clipHandler t req ⟨env.ytdlp, env.ffmpeg, u1⟩ fs0).response =
      (clipHandler t req env fs0).response := by
  refine ⟨?_, ?_, ?_, ?_, clipHandler_response_unlink t req env u1 fs0⟩
  · exact cleanup_noop u tp f fs
  · intro hu
    refine cleanup_noop u tp f (cleanup u tp f fs).1 ?_ ?_
    · intro p hp
      rw [hp]
      rw [hp] at *
      exact cleanup_temp_absent u p f fs (hu p)
    · exact cleanup_part_absent u tp f fs (hu _)
  · intro _ hup
    exact cleanup_part_absent u tp f fs hup
  · intro p hp hupp
    rw [hp]
    exact cleanup_temp_absent u p f fs hupp

/-- C7 witness: running cleanup a second time on the same paths after a
successful first run changes nothing and logs no error. -/
theorem cleanup_idempotent_witness :
    cleanup unlinkOk (some "uploads/temp-muxed-5.mp4") "uploads/clip-5.mp4"
        (cleanup unlinkOk (some "uploads/temp-muxed-5.mp4") "uploads/clip-5.mp4"
          [("uploads/temp-muxed-5.mp4", 3)]).1 =
      ((cleanup unlinkOk (some "uploads/temp-muxed-5.mp4") "uploads/clip-5.mp4"
          [("uploads/temp-muxed-5.mp4", 3)]).1, []) :=
  (cleanup_idempotent_failure_tolerant unlinkOk unlinkOk (some "uploads/temp-muxed-5.mp4")
    "uploads/clip-5.mp4" [("uploads/temp-muxed-5.mp4", 3)] 5 reqOk envOk []).2.1
    (fun _ => rfl)

end ClipService
